import Mathlib

/-!
Verification of the Safar Travel conversational booking assistant
(`src/manager.py`, `src/tools.py`) via a shallow embedding in Lean 4.

Modelling conventions:
* Python dicts keyed by strings (the `TICKET_DB` ticket store) become
  association lists with first-match lookup and replace-first-or-append
  update, mirroring Python dict semantics (insertion order preserved,
  `len` counts entries, assignment to an existing key keeps its slot).
* Nondeterministic externals (`uuid.uuid4().hex`, `datetime.now()`, the
  ChromaDB similarity search, the destination-suggestion LLM call) are
  supplied by an `Oracle` of pure functions consulted in program order.
* `json.loads` of a tool call's argument string is an external stdlib
  call; its outcome is carried on the request as `argsDecoded`, where
  `none` models a `json.JSONDecodeError`.
* Python float arithmetic appears in exactly two places: the premium
  price `1500000 * 1.5` (exactly `2250000.0` in IEEE-754 doubles) and
  the refund `int(price_irr * 0.70)`.  For the two prices `book_ticket`
  can produce (1500000 and 2250000) the double product `price * 0.70`
  is exactly 1050000.0 resp. 1575000.0, so `int(price * 0.70)` equals
  the exact `price * 7 / 10`; the model uses the latter.
* A Python exception escaping `function_to_call(**function_args)` in
  `_execute_tool_call` (e.g. a `TypeError` for a missing or unexpected
  keyword argument) propagates to the orchestrator; the embedding makes
  this an `Except.error`.
-/

namespace SafarTravel

/-- A ticket record as stored in `TICKET_DB` (`tools.py`, `book_ticket`).
`price_irr` is integral for every reachable ticket (see file header),
so it is carried as a `Nat`.  `cancellation_date` is `none` until
`cancel_ticket` adds the key. -/
structure Ticket where
  ticket_id : String
  origin : String
  destination : String
  travel_date : String
  departure_time : String
  passenger_name : String
  national_id : String
  price_irr : Nat
  status : String
  booking_date : String
  cancellation_date : Option String := none
  deriving DecidableEq, Repr

/-- A value appearing in a tool result dict: a string, an integer, an
embedded ticket record, or opaque structured data from an external call. -/
inductive RVal where
  | s (v : String)
  | n (v : Nat)
  | ticket (t : Ticket)
  | raw (v : String)
  deriving DecidableEq, Repr

/-- A tool result is a Python dict, modelled as an ordered field list. -/
abbrev ToolResult := List (String × RVal)

/-- Python dict lookup (`TICKET_DB.get(k)`): first matching key. -/
def dbGet (db : List (String × Ticket)) (k : String) : Option Ticket :=
  match db with
  | [] => none
  | (k', v) :: rest => if k' = k then some v else dbGet rest k

/-- Python dict assignment (`TICKET_DB[k] = v`): replace the binding in
place if the key exists, otherwise append a new binding. -/
def dbSet (db : List (String × Ticket)) (k : String) (v : Ticket) : List (String × Ticket) :=
  match db with
  | [] => [(k, v)]
  | (k', v') :: rest => if k' = k then (k, v) :: rest else (k', v') :: dbSet rest k v

/-- External nondeterminism, consulted in program order:
`uuidHex i` is the `i`-th `uuid.uuid4().hex`, `now i` the `i`-th
`datetime.now().strftime(...)` string, `ragBest q` the top document the
ChromaDB similarity query returns for `q` (`none` when the query yields
no documents), and `destData p` the decoded structured output of the
destination-suggestion LLM call (`Except.error e` when that call or the
JSON decode of its output raises with message `e`). -/
structure Oracle where
  uuidHex : Nat → String
  now : Nat → String
  ragBest : String → Option String
  destData : String → Except String String

/-- Process-wide mutable tool-set state: the `TICKET_DB` dict, the list
of policy documents loaded into the ChromaDB collection, and the number
of uuid / clock reads already consumed from the oracle streams. -/
structure SysState where
  ticket_db : List (String × Ticket)
  ragDocs : List String
  uuidCount : Nat
  clockCount : Nat
  deriving DecidableEq, Repr

/-- `_generate_ticket_id` (`tools.py` line 17):
`f"SF-{origin[:2].upper()}{destination[:2].upper()}-{uuid.uuid4().hex[:6].upper()}"`,
with the uuid hex supplied by the oracle. -/
def generate_ticket_id (origin destination uuidHex : String) : String :=
  "SF-" ++ (origin.take 2).toUpper ++ (destination.take 2).toUpper ++ "-" ++
    (uuidHex.take 6).toUpper

/-- The three fixed departure slots (`travel_times`, `tools.py` line 35). -/
def travel_times : List String := ["08:00", "14:30", "20:00"]

/-- `book_ticket` (`tools.py` lines 22-61).  The guard
`not all([...])` fires exactly when some argument is the empty string
(Python string falsiness).  The premium price `1500000 * 1.5` is the
exact double `2250000.0`, carried as `1500000 * 3 / 2`.  The departure
slot is indexed by `len(TICKET_DB) % 3` evaluated before insertion.
The `try` around the body has no raising statement reachable in it. -/
def book_ticket (oracle : Oracle) (st : SysState)
    (origin_city destination_city travel_date passenger_name national_id : String) :
    ToolResult × SysState :=
  if origin_city = "" ∨ destination_city = "" ∨ travel_date = "" ∨
      passenger_name = "" ∨ national_id = "" then
    ([("status", RVal.s "error"),
      ("message", RVal.s "Missing required booking information. Please provide origin city, destination city, travel date, passenger name, and national ID (کد ملی).")], st)
  else
    let base_price : Nat :=
      if destination_city.toLower = "kish" ∨ destination_city.toLower = "qeshm" then
        1500000 * 3 / 2
      else 1500000
    let ticket_id := generate_ticket_id origin_city destination_city (oracle.uuidHex st.uuidCount)
    let ticket_data : Ticket :=
      { ticket_id := ticket_id
        origin := origin_city
        destination := destination_city
        travel_date := travel_date
        departure_time := travel_times.getD (st.ticket_db.length % 3) ""
        passenger_name := passenger_name
        national_id := national_id
        price_irr := base_price
        status := "CONFIRMED"
        booking_date := oracle.now st.clockCount }
    ([("status", RVal.s "success"),
      ("message", RVal.s "بلیط شما با موفقیت رزرو شد. (Ticket successfully booked)."),
      ("details", RVal.ticket ticket_data)],
     { st with
        ticket_db := dbSet st.ticket_db ticket_id ticket_data
        uuidCount := st.uuidCount + 1
        clockCount := st.clockCount + 1 })

/-- Insert a thousands separator after every third digit of a reversed
digit list, mirroring Python's `{n:,}` format. -/
def commaRev : List Char → List Char
  | c1 :: c2 :: c3 :: c4 :: rest => c1 :: c2 :: c3 :: ',' :: commaRev (c4 :: rest)
  | l => l
termination_by l => l.length

/-- Python `f"{n:,}"` for a natural number. -/
def commaFormat (n : Nat) : String :=
  String.mk (commaRev (toString n).toList.reverse).reverse

/-- The success message of `cancel_ticket` (`tools.py` line 85). -/
def cancelSuccessMsg (ticket_id : String) (refund penalty : Nat) : String :=
  "Ticket " ++ ticket_id ++ " has been successfully cancelled. A refund of " ++
    commaFormat refund ++ " IRR (70% of price) will be processed. Penalty applied: " ++
    commaFormat penalty ++ " IRR."

/-- The not-found message shared by `cancel_ticket` and `get_ticket_info`. -/
def ticketNotFoundMsg (ticket_id : String) : String :=
  "Ticket ID '" ++ ticket_id ++ "' not found. Please check the ID."

/-- `cancel_ticket` (`tools.py` lines 63-88).  The refund
`int(ticket["price_irr"] * 0.70)` equals the exact `price_irr * 7 / 10`
for every price `book_ticket` produces (see file header). -/
def cancel_ticket (oracle : Oracle) (st : SysState) (ticket_id : String) :
    ToolResult × SysState :=
  match dbGet st.ticket_db ticket_id with
  | none =>
    ([("status", RVal.s "error"), ("message", RVal.s (ticketNotFoundMsg ticket_id))], st)
  | some ticket =>
    if ticket.status = "CANCELLED" then
      ([("status", RVal.s "info"),
        ("message", RVal.s ("Ticket ID '" ++ ticket_id ++ "' is already cancelled."))], st)
    else
      let refund_amount := ticket.price_irr * 7 / 10
      let penalty_amount := ticket.price_irr - refund_amount
      let ticket' := { ticket with
        status := "CANCELLED"
        cancellation_date := some (oracle.now st.clockCount) }
      ([("status", RVal.s "success"),
        ("message", RVal.s (cancelSuccessMsg ticket_id refund_amount penalty_amount)),
        ("ticket_id", RVal.s ticket_id),
        ("refund_amount_irr", RVal.n refund_amount)],
       { st with
          ticket_db := dbSet st.ticket_db ticket_id ticket'
          clockCount := st.clockCount + 1 })

/-- `get_ticket_info` (`tools.py` lines 90-102): pure lookup, no state
change. -/
def get_ticket_info (st : SysState) (ticket_id : String) : ToolResult :=
  match dbGet st.ticket_db ticket_id with
  | none =>
    [("status", RVal.s "error"), ("message", RVal.s (ticketNotFoundMsg ticket_id))]
  | some ticket =>
    [("status", RVal.s "success"),
     ("message", RVal.s "Ticket information retrieved."),
     ("details", RVal.ticket ticket)]

/-- `RAGTool.lookup_policy` (`tools.py` lines 144-167): error when the
collection is empty (`collection.count() == 0`), otherwise the
similarity query (external, via the oracle) yields either the best
document or an `info` no-match result. -/
def lookup_policy (oracle : Oracle) (st : SysState) (query : String) : ToolResult :=
  if st.ragDocs.length = 0 then
    [("status", RVal.s "error"), ("message", RVal.s "Policy knowledge base is not available.")]
  else
    match oracle.ragBest query with
    | some relevant_text =>
      [("status", RVal.s "success"),
       ("relevant_policy", RVal.s relevant_text),
       ("message", RVal.s "Policy information retrieved from Safar Travel knowledge base.")]
    | none =>
      [("status", RVal.s "info"),
       ("message", RVal.s "No direct match in the policy knowledge base.")]

/-- `DestinationTool.search_destinations` (`tools.py` lines 176-227):
the whole body is wrapped in `try/except`, so an exception from the LLM
call or the JSON decode becomes a `status: error` result. -/
def search_destinations (oracle : Oracle) (user_preferences : String) : ToolResult :=
  match oracle.destData user_preferences with
  | Except.ok recommendations_data =>
    [("status", RVal.s "success"),
     ("message", RVal.s "Destination suggestions generated by LLM reasoning. Use this data to present recommendations to the user."),
     ("data", RVal.raw recommendations_data)]
  | Except.error e =>
    [("status", RVal.s "error"),
     ("message", RVal.s ("Failed to generate destination recommendations using LLM reasoning: " ++ e))]

/-- A structured tool-call request as produced by the Completion
Service (`tool_call.model_dump()` in `manager.py`).  `argsDecoded` is
the outcome of the external `json.loads(tool_call["function"]["arguments"])`:
`none` models a `json.JSONDecodeError`, `some args` the decoded keyword
dict (all tool parameters are declared string-typed in the schemas). -/
structure ToolCallRequest where
  id : String
  name : String
  argsDecoded : Option (List (String × String))
  deriving DecidableEq, Repr

/-- A Python exception escaping the dispatch layer: the `TypeError`
raised by `function_to_call(**function_args)` when the keyword dict does
not match the callable's parameters. -/
inductive PyError where
  | typeError (fn : String)
  deriving DecidableEq, Repr

/-- The `__name__`s of the five callables returned by
`SafarTools.get_tool_callables` (`tools.py` lines 309-320); the keys of
`func_map` in `_execute_tool_call`. -/
def registeredNames : List String :=
  ["book_ticket", "cancel_ticket", "get_ticket_info", "lookup_policy", "search_destinations"]

/-- Keys of a decoded keyword dict. -/
def argKeys (args : List (String × String)) : List String := args.map Prod.fst

/-- Python keyword-call compatibility: `f(**args)` succeeds (no
`TypeError`) exactly when the dict's keys are the callable's parameter
names — no required parameter missing, no unexpected keyword. -/
def kwargsMatch (args : List (String × String)) (params : List String) : Bool :=
  params.all (fun p => (argKeys args).contains p) &&
    (argKeys args).all (fun k => params.contains k)

/-- Value of a keyword argument (first binding; a decoded JSON object
has distinct keys).  Only consulted after `kwargsMatch` has succeeded,
so the default is unreachable. -/
def getArg (args : List (String × String)) (k : String) : String :=
  ((args.find? (fun p => p.1 = k)).map Prod.snd).getD ""

/-- The keyword call `function_to_call(**function_args)` for each
registered callable (the only raising point of the dispatch layer). -/
def callTool (oracle : Oracle) (st : SysState) (name : String)
    (args : List (String × String)) : Except PyError (ToolResult × SysState) :=
  if name = "book_ticket" then
    if kwargsMatch args ["origin_city", "destination_city", "travel_date", "passenger_name", "national_id"] then
      Except.ok (book_ticket oracle st (getArg args "origin_city") (getArg args "destination_city")
        (getArg args "travel_date") (getArg args "passenger_name") (getArg args "national_id"))
    else Except.error (PyError.typeError name)
  else if name = "cancel_ticket" then
    if kwargsMatch args ["ticket_id"] then
      Except.ok (cancel_ticket oracle st (getArg args "ticket_id"))
    else Except.error (PyError.typeError name)
  else if name = "get_ticket_info" then
    if kwargsMatch args ["ticket_id"] then
      Except.ok (get_ticket_info st (getArg args "ticket_id"), st)
    else Except.error (PyError.typeError name)
  else if name = "lookup_policy" then
    if kwargsMatch args ["query"] then
      Except.ok (lookup_policy oracle st (getArg args "query"), st)
    else Except.error (PyError.typeError name)
  else
    -- name = "search_destinations": the only remaining registered name.
    if kwargsMatch args ["user_preferences"] then
      Except.ok (search_destinations oracle (getArg args "user_preferences"), st)
    else Except.error (PyError.typeError name)

/-- `AgentManager._execute_tool_call` (`manager.py` lines 37-55):
unknown function names and undecodable argument payloads are converted
to `status: error` results; a `TypeError` at the call itself
propagates. -/
def executeToolCall (oracle : Oracle) (st : SysState) (tc : ToolCallRequest) :
    Except PyError (ToolResult × SysState) :=
  if registeredNames.contains tc.name then
    match tc.argsDecoded with
    | none =>
      Except.ok ([("status", RVal.s "error"),
        ("message", RVal.s ("Error decoding JSON arguments for " ++ tc.name))], st)
    | some args => callTool oracle st tc.name args
  else
    Except.ok ([("status", RVal.s "error"),
      ("message", RVal.s ("Unknown function: " ++ tc.name))], st)

/-- A conversation-history entry (`self.history` in `manager.py`): the
system prompt, a user message, an assistant text message, the dumped
assistant tool-call record appended at line 90, or a tool-result message
(`tool_call_id`, `name`, serialized `content`) appended at line 97. -/
inductive HMsg where
  | system (content : String)
  | user (content : String)
  | assistant (content : String)
  | assistantToolCalls (tool_calls : List ToolCallRequest)
  | tool (tool_call_id : String) (name : String) (content : String)
  deriving DecidableEq, Repr

/-- Simplified JSON string literal (escaping elided; no claim inspects
these strings). -/
def jquote (v : String) : String := "\"" ++ v ++ "\""

/-- Simplified JSON object rendering for `json.dumps(tool_result, ensure_ascii=False)`. -/
def jobj (fields : List (String × String)) : String :=
  "\x7b" ++ String.intercalate ", " (fields.map (fun p => jquote p.1 ++ ": " ++ p.2)) ++ "\x7d"

/-- Rendering of a stored ticket record. -/
def dumpTicket (t : Ticket) : String :=
  jobj ([("ticket_id", jquote t.ticket_id), ("origin", jquote t.origin),
    ("destination", jquote t.destination), ("travel_date", jquote t.travel_date),
    ("departure_time", jquote t.departure_time), ("passenger_name", jquote t.passenger_name),
    ("national_id", jquote t.national_id), ("price_irr", toString t.price_irr),
    ("status", jquote t.status), ("booking_date", jquote t.booking_date)] ++
    (match t.cancellation_date with
     | none => []
     | some d => [("cancellation_date", jquote d)]))

/-- Rendering of one result value. -/
def dumpRVal : RVal → String
  | RVal.s v => jquote v
  | RVal.n v => toString v
  | RVal.ticket t => dumpTicket t
  | RVal.raw v => v

/-- `json.dumps(tool_result, ensure_ascii=False)` (`manager.py` line 101). -/
def dumpResult (r : ToolResult) : String :=
  jobj (r.map (fun p => (p.1, dumpRVal p.2)))

/-- One response of the Completion Service call
(`self.client.chat.completions.create`): either the call raised
(`raised`, any transport/auth/timeout error collapsed to its message),
or it returned a message with optional `content` and a (possibly empty)
`tool_calls` list (`None` and `[]` are indistinguishable downstream,
both falsy). -/
inductive ServiceOutcome where
  | raised (e : String)
  | ok (content : Option String) (tool_calls : List ToolCallRequest)

/-- Environment of one `process_message` turn: the outcome of the
`i`-th Completion Service call of the turn, plus the tool oracle. -/
structure LoopEnv where
  complete : Nat → ServiceOutcome
  oracle : Oracle

/-- The localized apology returned when the Completion Service call
raises (`manager.py` line 76). -/
def apologyMsg (e : String) : String :=
  "متاسفانه در حال حاضر امکان برقراری ارتباط با سیستم وجود ندارد. لطفا کمی بعد دوباره تلاش کنید. (An API error occurred: " ++ e ++ ")"

/-- The localized clarification request for a degenerate response
(`manager.py` line 109). -/
def fallbackMsg : String :=
  "متاسفانه نتوانستم درخواست شما را متوجه شوم. آیا میتوانید واضح تر توضیح دهید؟ (I could not understand your request. Can you explain more clearly?)"

/-- The fixed advisory returned when the 5-iteration budget is
exhausted (`manager.py` line 113). -/
def maxStepsMsg : String :=
  "Sorry, I reached the maximum number of internal steps. Could you please simplify your request?"

/-- Sequential execution of one round's tool calls (`manager.py` lines
92-104): each call is dispatched in request order, its result serialized
into a `tool` message; an exception from dispatch propagates. -/
def runToolCalls (oracle : Oracle) (st : SysState) :
    List ToolCallRequest → Except PyError (List HMsg × SysState)
  | [] => Except.ok ([], st)
  | tc :: rest =>
    match executeToolCall oracle st tc with
    | Except.error e => Except.error e
    | Except.ok (res, st') =>
      match runToolCalls oracle st' rest with
      | Except.error e => Except.error e
      | Except.ok (msgs, st'') =>
        Except.ok (HMsg.tool tc.id tc.name (dumpResult res) :: msgs, st'')

/-- The body of the `for _ in range(5)` loop in `process_message`
(`manager.py` lines 66-113).  `messages_to_send = self.history` aliases
the history list, so every append in the tool branch lands in the one
history list `hist`; `self.history.pop()` on the failure and degenerate
branches removes the *last* entry of that same list.  `content.getD ""`
collapses `None` and `""`, which Python truthiness treats alike. -/
def processLoop (env : LoopEnv) :
    Nat → Nat → List HMsg → SysState → Except PyError (String × List HMsg × SysState)
  | 0, _, hist, st => Except.ok (maxStepsMsg, hist, st)
  | fuel + 1, callIdx, hist, st =>
    match env.complete callIdx with
    | ServiceOutcome.raised e => Except.ok (apologyMsg e, hist.dropLast, st)
    | ServiceOutcome.ok content tool_calls =>
      let s := content.getD ""
      if s = "" then
        if tool_calls = [] then
          Except.ok (fallbackMsg, hist.dropLast, st)
        else
          match runToolCalls env.oracle st tool_calls with
          | Except.error e => Except.error e
          | Except.ok (toolMsgs, st') =>
            processLoop env fuel (callIdx + 1)
              ((hist ++ [HMsg.assistantToolCalls tool_calls]) ++ toolMsgs) st'
      else
        Except.ok (s, hist ++ [HMsg.assistant s], st)

/-- `AgentManager.process_message` (`manager.py` lines 57-113): append
the user message, then run at most 5 loop iterations. -/
def process_message (env : LoopEnv) (history : List HMsg) (st : SysState)
    (user_message : String) : Except PyError (String × List HMsg × SysState) :=
  processLoop env 5 0 (history ++ [HMsg.user user_message]) st

/-- The ticket record `book_ticket` constructs for a valid request (the
`ticket_data` literal), stated once for reuse in theorem statements; it
is definitionally the record stored by `book_ticket`. -/
def bookedTicket (oracle : Oracle) (st : SysState) (o d dt pn nid : String) : Ticket :=
  { ticket_id := generate_ticket_id o d (oracle.uuidHex st.uuidCount)
    origin := o
    destination := d
    travel_date := dt
    departure_time := travel_times.getD (st.ticket_db.length % 3) ""
    passenger_name := pn
    national_id := nid
    price_irr := if d.toLower = "kish" ∨ d.toLower = "qeshm" then 1500000 * 3 / 2 else 1500000
    status := "CONFIRMED"
    booking_date := oracle.now st.clockCount }

/-- The tool-set state after a valid booking. -/
def bookedState (oracle : Oracle) (st : SysState) (o d dt pn nid : String) : SysState :=
  { st with
    ticket_db := dbSet st.ticket_db (bookedTicket oracle st o d dt pn nid).ticket_id
      (bookedTicket oracle st o d dt pn nid)
    uuidCount := st.uuidCount + 1
    clockCount := st.clockCount + 1 }

/-! Shared concrete instances used by witnesses and counterexamples. -/

/-- A concrete oracle: fixed uuid hex, fixed clock, no RAG match, a
failing destination-LLM call. -/
def oracle0 : Oracle :=
  { uuidHex := fun _ => "a1b2c3d4e5f6"
    now := fun _ => "2025-01-01 12:00:00"
    ragBest := fun _ => none
    destData := fun _ => Except.error "connection refused" }

/-- The fresh tool-set state: empty ticket store, empty policy corpus. -/
def sys0 : SysState :=
  { ticket_db := [], ragDocs := [], uuidCount := 0, clockCount := 0 }

/-- A well-formed `get_ticket_info` request on an id that is never
booked: it executes without raising and without changing state. -/
def infoCall : ToolCallRequest :=
  { id := "call_1", name := "get_ticket_info",
    argsDecoded := some [("ticket_id", "SF-XX-000000")] }

/-- The `tool` history message `infoCall` produces on an empty store. -/
def infoToolMsg : HMsg :=
  HMsg.tool "call_1" "get_ticket_info"
    (dumpResult [("status", RVal.s "error"),
      ("message", RVal.s (ticketNotFoundMsg "SF-XX-000000"))])

/-- A confirmed premium-destination ticket. -/
def ticket0 : Ticket :=
  { ticket_id := "SF-TEKI-A1B2C3", origin := "Tehran", destination := "Kish",
    travel_date := "2025-02-01", departure_time := "08:00",
    passenger_name := "Ali Ahmadi", national_id := "0012345678",
    price_irr := 2250000, status := "CONFIRMED",
    booking_date := "2025-01-01 12:00:00" }

/-- A state holding exactly `ticket0`. -/
def sys1 : SysState :=
  { ticket_db := [("SF-TEKI-A1B2C3", ticket0)], ragDocs := [],
    uuidCount := 1, clockCount := 1 }

/-- `ticket0` after cancellation under `oracle0` at clock reading 1. -/
def ticket0c : Ticket :=
  { ticket0 with
    status := "CANCELLED"
    cancellation_date := some "2025-01-01 12:00:00" }

/-- A state holding exactly the cancelled `ticket0c`. -/
def sys2 : SysState :=
  { ticket_db := [("SF-TEKI-A1B2C3", ticket0c)], ragDocs := [],
    uuidCount := 1, clockCount := 2 }

/-- A turn environment whose first service call requests one tool call
and whose second call raises. -/
def envC1 : LoopEnv :=
  { complete := fun i =>
      if i = 0 then ServiceOutcome.ok none [infoCall]
      else ServiceOutcome.raised "boom"
    oracle := oracle0 }

/-- A turn environment whose every service call requests one tool call
(a mock Completion Service that never produces terminal text). -/
def envLoop : LoopEnv :=
  { complete := fun _ => ServiceOutcome.ok none [infoCall]
    oracle := oracle0 }

/-! Dictionary lemmas for the ticket store. -/

theorem dbGet_dbSet_self (db : List (String × Ticket)) (k : String) (v : Ticket) :
    dbGet (dbSet db k v) k = some v := by
  induction db with
  | nil => simp [dbSet, dbGet]
  | cons p rest ih =>
    obtain ⟨k', v'⟩ := p
    by_cases h : k' = k
    · simp [dbSet, dbGet, h]
    · simp [dbSet, dbGet, h, ih]

theorem dbGet_dbSet_ne (db : List (String × Ticket)) (k k' : String) (v : Ticket)
    (h : k' ≠ k) : dbGet (dbSet db k v) k' = dbGet db k' := by
  induction db with
  | nil => simp [dbSet, dbGet, Ne.symm h]
  | cons p rest ih =>
    obtain ⟨k₀, v₀⟩ := p
    by_cases h₀ : k₀ = k
    · subst h₀
      simp [dbSet, dbGet, Ne.symm h]
    · simp [dbSet, dbGet, h₀, ih]

theorem length_dbSet_of_mem (db : List (String × Ticket)) (k : String) (v t : Ticket)
    (h : dbGet db k = some t) : (dbSet db k v).length = db.length := by
  induction db with
  | nil => simp [dbGet] at h
  | cons p rest ih =>
    obtain ⟨k₀, v₀⟩ := p
    by_cases h₀ : k₀ = k
    · simp [dbSet, h₀]
    · simp only [dbGet, h₀, if_false] at h
      simp [dbSet, h₀, ih h]

theorem length_dbSet_of_none (db : List (String × Ticket)) (k : String) (v : Ticket)
    (h : dbGet db k = none) : (dbSet db k v).length = db.length + 1 := by
  induction db with
  | nil => simp [dbSet]
  | cons p rest ih =>
    obtain ⟨k₀, v₀⟩ := p
    by_cases h₀ : k₀ = k
    · subst h₀
      simp [dbGet] at h
    · simp only [dbGet, h₀, if_false] at h
      simp [dbSet, h₀, ih h]

/-- Helper: one loop iteration that receives tool calls and executes
them appends the assistant tool-call record and the tool messages to the
history and recurses with the remaining fuel. -/
theorem processLoop_tool_step (env : LoopEnv) (fuel callIdx : Nat) (hist : List HMsg)
    (st : SysState) (tcs : List ToolCallRequest) (out : List HMsg) (st' : SysState)
    (h : env.complete callIdx = ServiceOutcome.ok none tcs) (hn : tcs ≠ [])
    (hr : runToolCalls env.oracle st tcs = Except.ok (out, st')) :
    processLoop env (fuel + 1) callIdx hist st =
      processLoop env fuel (callIdx + 1)
        ((hist ++ [HMsg.assistantToolCalls tcs]) ++ out) st' := by
  conv_lhs => rw [processLoop]
  rw [h]
  simp [hn, hr]

/-- C2: if the Completion Service returns non-empty assistant text on
the first loop iteration, `process_message` returns exactly that text
and the history grows by exactly the user message followed by an
assistant message carrying that text. -/
theorem process_message_first_iteration_text (env : LoopEnv) (history : List HMsg)
    (st : SysState) (msg s : String) (tcs : List ToolCallRequest)
    (h0 : env.complete 0 = ServiceOutcome.ok (some s) tcs) (hs : s ≠ "") :
    process_message env history st msg =
      Except.ok (s, history ++ [HMsg.user msg, HMsg.assistant s], st) := by
  unfold process_message processLoop
  rw [h0]
  simp [hs]

/-- Witness for C2 at a concrete turn. -/
theorem process_message_first_iteration_text_witness :
    process_message
      { complete := fun _ => ServiceOutcome.ok (some "hello") [], oracle := oracle0 }
      [HMsg.system "sys"] sys0 "hi" =
      Except.ok ("hello", [HMsg.system "sys", HMsg.user "hi", HMsg.assistant "hello"], sys0) :=
  process_message_first_iteration_text _ _ _ _ _ _ rfl (by decide)

/-- C1 as stated is false: when the Completion Service raises on a
*later* iteration, `history.pop()` removes only the most recently
appended entry (here the tool message), so the history is longer than
before the turn even though the apology is returned.  Concretely: one
tool round then a failure leaves the user message and the assistant
tool-call record in a history of length 3, against length 1 before. -/
theorem claim_C1_counterexample :
    process_message envC1 [HMsg.system "s"] sys0 "hi" =
      Except.ok (apologyMsg "boom",
        [HMsg.system "s", HMsg.user "hi", HMsg.assistantToolCalls [infoCall]], sys0) ∧
    ([HMsg.system "s", HMsg.user "hi", HMsg.assistantToolCalls [infoCall]] : List HMsg).length ≠
      ([HMsg.system "s"] : List HMsg).length := by
  constructor
  · rfl
  · decide

/-- C1 (amended): when the Completion Service call fails on the *first*
loop iteration — before any tool round has extended the history — the
rollback invariant holds: the history is restored exactly to its value
before `process_message`, and the returned string is the localized
apology text. -/
theorem process_message_failure_first_iteration_rollback (env : LoopEnv)
    (history : List HMsg) (st : SysState) (msg e : String)
    (h0 : env.complete 0 = ServiceOutcome.raised e) :
    process_message env history st msg = Except.ok (apologyMsg e, history, st) := by
  unfold process_message processLoop
  rw [h0]
  simp

/-- Witness for amended C1 at a concrete turn. -/
theorem process_message_failure_first_iteration_rollback_witness :
    process_message { complete := fun _ => ServiceOutcome.raised "down", oracle := oracle0 }
      [HMsg.system "sys"] sys0 "hi" =
      Except.ok (apologyMsg "down", [HMsg.system "sys"], sys0) :=
  process_message_failure_first_iteration_rollback _ _ _ _ _ rfl

/-- C3: if the Completion Service returns tool-call requests on all 5
loop iterations (never terminal text, never a failure, never a
degenerate response) and every round's tool calls execute without
raising, `process_message` returns the fixed maximum-steps advisory and
the final history is exactly the prior history, the user message, and
the five rounds' assistant tool-call records each followed by its tool
results — nothing is removed or added after the fifth round. -/
theorem process_message_budget_exhausted (env : LoopEnv) (history : List HMsg)
    (st0 st1 st2 st3 st4 st5 : SysState) (msg : String)
    (tcs0 tcs1 tcs2 tcs3 tcs4 : List ToolCallRequest)
    (out0 out1 out2 out3 out4 : List HMsg)
    (h0 : env.complete 0 = ServiceOutcome.ok none tcs0) (n0 : tcs0 ≠ [])
    (r0 : runToolCalls env.oracle st0 tcs0 = Except.ok (out0, st1))
    (h1 : env.complete 1 = ServiceOutcome.ok none tcs1) (n1 : tcs1 ≠ [])
    (r1 : runToolCalls env.oracle st1 tcs1 = Except.ok (out1, st2))
    (h2 : env.complete 2 = ServiceOutcome.ok none tcs2) (n2 : tcs2 ≠ [])
    (r2 : runToolCalls env.oracle st2 tcs2 = Except.ok (out2, st3))
    (h3 : env.complete 3 = ServiceOutcome.ok none tcs3) (n3 : tcs3 ≠ [])
    (r3 : runToolCalls env.oracle st3 tcs3 = Except.ok (out3, st4))
    (h4 : env.complete 4 = ServiceOutcome.ok none tcs4) (n4 : tcs4 ≠ [])
    (r4 : runToolCalls env.oracle st4 tcs4 = Except.ok (out4, st5)) :
    process_message env history st0 msg =
      Except.ok (maxStepsMsg,
        history ++ [HMsg.user msg] ++
          ([HMsg.assistantToolCalls tcs0] ++ out0) ++
          ([HMsg.assistantToolCalls tcs1] ++ out1) ++
          ([HMsg.assistantToolCalls tcs2] ++ out2) ++
          ([HMsg.assistantToolCalls tcs3] ++ out3) ++
          ([HMsg.assistantToolCalls tcs4] ++ out4), st5) := by
  unfold process_message
  rw [show (5 : Nat) = 4 + 1 from rfl, processLoop_tool_step env 4 0 _ _ _ _ _ h0 n0 r0,
    processLoop_tool_step env 3 1 _ _ _ _ _ h1 n1 r1,
    processLoop_tool_step env 2 2 _ _ _ _ _ h2 n2 r2,
    processLoop_tool_step env 1 3 _ _ _ _ _ h3 n3 r3,
    processLoop_tool_step env 0 4 _ _ _ _ _ h4 n4 r4]
  unfold processLoop
  simp [List.append_assoc]

/-- Witness for C3: a mock Completion Service that always returns one
tool-call request exhausts the budget. -/
theorem process_message_budget_exhausted_witness :
    process_message envLoop [HMsg.system "sys"] sys0 "hi" =
      Except.ok (maxStepsMsg,
        [HMsg.system "sys"] ++ [HMsg.user "hi"] ++
          ([HMsg.assistantToolCalls [infoCall]] ++ [infoToolMsg]) ++
          ([HMsg.assistantToolCalls [infoCall]] ++ [infoToolMsg]) ++
          ([HMsg.assistantToolCalls [infoCall]] ++ [infoToolMsg]) ++
          ([HMsg.assistantToolCalls [infoCall]] ++ [infoToolMsg]) ++
          ([HMsg.assistantToolCalls [infoCall]] ++ [infoToolMsg]), sys0) :=
  process_message_budget_exhausted envLoop [HMsg.system "sys"]
    sys0 sys0 sys0 sys0 sys0 sys0 "hi"
    [infoCall] [infoCall] [infoCall] [infoCall] [infoCall]
    [infoToolMsg] [infoToolMsg] [infoToolMsg] [infoToolMsg] [infoToolMsg]
    rfl (by decide) rfl rfl (by decide) rfl rfl (by decide) rfl
    rfl (by decide) rfl rfl (by decide) rfl

/-- C6: dispatching a request whose tool name is not registered returns
a `status: error` ToolResult whose message names the unknown function,
and dispatching a registered name whose argument payload failed to
decode returns a `status: error` ToolResult describing the decode
failure; in both cases the result is returned (no exception) and the
tool-set state is untouched. -/
theorem executeToolCall_unknown_or_undecodable (oracle : Oracle) (st : SysState)
    (tc : ToolCallRequest) :
    (registeredNames.contains tc.name = false →
      executeToolCall oracle st tc =
        Except.ok ([("status", RVal.s "error"),
          ("message", RVal.s ("Unknown function: " ++ tc.name))], st)) ∧
    (registeredNames.contains tc.name = true → tc.argsDecoded = none →
      executeToolCall oracle st tc =
        Except.ok ([("status", RVal.s "error"),
          ("message", RVal.s ("Error decoding JSON arguments for " ++ tc.name))], st)) := by
  constructor
  · intro h
    unfold executeToolCall
    rw [h]
    simp
  · intro h hd
    unfold executeToolCall
    rw [h, hd]
    simp

/-- Witness for C6: an unregistered name, and a registered name with an
undecodable payload. -/
theorem executeToolCall_unknown_or_undecodable_witness :
    executeToolCall oracle0 sys0 { id := "c1", name := "fly_me", argsDecoded := some [] } =
      Except.ok ([("status", RVal.s "error"),
        ("message", RVal.s ("Unknown function: " ++ "fly_me"))], sys0) ∧
    executeToolCall oracle0 sys0 { id := "c2", name := "cancel_ticket", argsDecoded := none } =
      Except.ok ([("status", RVal.s "error"),
        ("message", RVal.s ("Error decoding JSON arguments for " ++ "cancel_ticket"))], sys0) :=
  ⟨(executeToolCall_unknown_or_undecodable oracle0 sys0 _).1 (by decide),
   (executeToolCall_unknown_or_undecodable oracle0 sys0 _).2 (by decide) rfl⟩

/-- C5 as stated is false: a `book_ticket` request whose decoded
argument payload omits the required fields entirely (the valid JSON
object `{}`) is not converted to a `status: error` result — the keyword
call `function_to_call(**function_args)` in `_execute_tool_call` raises
`TypeError`, which propagates to the orchestrator uncaught. -/
theorem claim_C5_counterexample :
    executeToolCall oracle0 sys0 { id := "c1", name := "book_ticket", argsDecoded := some [] } =
      Except.error (PyError.typeError "book_ticket") := by
  rfl

/-- C5 (amended): for the expected failure conditions reachable with
the declared arguments present — every required `book_ticket` field
present but empty, an unknown ticket id at `cancel_ticket` or
`get_ticket_info`, an empty policy corpus at `lookup_policy` — dispatch
returns a structured `status: error` result without raising and leaves
the tool-set state (in particular the Ticket store size) unchanged;
a payload that omits a required argument instead raises a `TypeError`
through the dispatch layer. -/
theorem executeToolCall_expected_failures (oracle : Oracle) (st : SysState)
    (cid o d dt pn nid tid q : String) :
    (o = "" ∨ d = "" ∨ dt = "" ∨ pn = "" ∨ nid = "" →
      executeToolCall oracle st
        { id := cid, name := "book_ticket",
          argsDecoded := some [("origin_city", o), ("destination_city", d),
            ("travel_date", dt), ("passenger_name", pn), ("national_id", nid)] } =
        Except.ok ([("status", RVal.s "error"),
          ("message", RVal.s "Missing required booking information. Please provide origin city, destination city, travel date, passenger name, and national ID (کد ملی).")], st)) ∧
    (dbGet st.ticket_db tid = none →
      executeToolCall oracle st
        { id := cid, name := "cancel_ticket", argsDecoded := some [("ticket_id", tid)] } =
        Except.ok ([("status", RVal.s "error"),
          ("message", RVal.s (ticketNotFoundMsg tid))], st)) ∧
    (dbGet st.ticket_db tid = none →
      executeToolCall oracle st
        { id := cid, name := "get_ticket_info", argsDecoded := some [("ticket_id", tid)] } =
        Except.ok ([("status", RVal.s "error"),
          ("message", RVal.s (ticketNotFoundMsg tid))], st)) ∧
    (st.ragDocs = [] →
      executeToolCall oracle st
        { id := cid, name := "lookup_policy", argsDecoded := some [("query", q)] } =
        Except.ok ([("status", RVal.s "error"),
          ("message", RVal.s "Policy knowledge base is not available.")], st)) := by
  refine ⟨?_, ?_, ?_, ?_⟩
  · intro h
    show Except.ok (book_ticket oracle st o d dt pn nid) = _
    unfold book_ticket
    rw [if_pos h]
  · intro h
    show Except.ok (cancel_ticket oracle st tid) = _
    unfold cancel_ticket
    rw [h]
  · intro h
    show Except.ok (get_ticket_info st tid, st) = _
    unfold get_ticket_info
    rw [h]
  · intro h
    show Except.ok (lookup_policy oracle st q, st) = _
    unfold lookup_policy
    rw [h]
    simp

/-- Witness for amended C5: an empty passenger name, an unknown ticket
id, and the empty corpus, each at a concrete state. -/
theorem executeToolCall_expected_failures_witness :
    (executeToolCall oracle0 sys0
      { id := "c1", name := "book_ticket",
        argsDecoded := some [("origin_city", "Tehran"), ("destination_city", "Kish"),
          ("travel_date", "2025-02-01"), ("passenger_name", ""), ("national_id", "0012345678")] } =
      Except.ok ([("status", RVal.s "error"),
        ("message", RVal.s "Missing required booking information. Please provide origin city, destination city, travel date, passenger name, and national ID (کد ملی).")], sys0)) ∧
    (executeToolCall oracle0 sys0
      { id := "c1", name := "cancel_ticket", argsDecoded := some [("ticket_id", "SF-XX-000000")] } =
      Except.ok ([("status", RVal.s "error"),
        ("message", RVal.s (ticketNotFoundMsg "SF-XX-000000"))], sys0)) ∧
    (executeToolCall oracle0 sys0
      { id := "c1", name := "lookup_policy", argsDecoded := some [("query", "refund rules")] } =
      Except.ok ([("status", RVal.s "error"),
        ("message", RVal.s "Policy knowledge base is not available.")], sys0)) :=
  ⟨(executeToolCall_expected_failures oracle0 sys0 "c1" "Tehran" "Kish" "2025-02-01" ""
      "0012345678" "SF-XX-000000" "refund rules").1 (by simp),
   (executeToolCall_expected_failures oracle0 sys0 "c1" "Tehran" "Kish" "2025-02-01" ""
      "0012345678" "SF-XX-000000" "refund rules").2.1 rfl,
   (executeToolCall_expected_failures oracle0 sys0 "c1" "Tehran" "Kish" "2025-02-01" ""
      "0012345678" "SF-XX-000000" "refund rules").2.2.2 rfl⟩

/-- C4: cancelling a CONFIRMED ticket transitions its stored status to
CANCELLED and returns a success result whose refund is exactly 70% of
the price — for the prices `book_ticket` produces the computation is
exact, so the refund equals `round(price * 0.70)` — and the penalty
reported in the message is the price minus the refund. -/
theorem cancel_ticket_confirmed_refund (oracle : Oracle) (st : SysState)
    (tid : String) (t : Ticket)
    (hget : dbGet st.ticket_db tid = some t)
    (hstatus : t.status = "CONFIRMED")
    (hprice : t.price_irr = 1500000 ∨ t.price_irr = 2250000) :
    cancel_ticket oracle st tid =
      ([("status", RVal.s "success"),
        ("message", RVal.s (cancelSuccessMsg tid (t.price_irr * 7 / 10)
          (t.price_irr - t.price_irr * 7 / 10))),
        ("ticket_id", RVal.s tid),
        ("refund_amount_irr", RVal.n (t.price_irr * 7 / 10))],
       { st with
          ticket_db := dbSet st.ticket_db tid
            { t with
              status := "CANCELLED"
              cancellation_date := some (oracle.now st.clockCount) }
          clockCount := st.clockCount + 1 }) ∧
    dbGet (cancel_ticket oracle st tid).2.ticket_db tid =
      some { t with
        status := "CANCELLED"
        cancellation_date := some (oracle.now st.clockCount) } ∧
    ((t.price_irr * 7 / 10 : ℕ) : ℚ) = round ((t.price_irr : ℚ) * (70 / 100 : ℚ)) := by
  have hne : ¬ t.status = "CANCELLED" := by
    rw [hstatus]
    decide
  have hmain : cancel_ticket oracle st tid =
      ([("status", RVal.s "success"),
        ("message", RVal.s (cancelSuccessMsg tid (t.price_irr * 7 / 10)
          (t.price_irr - t.price_irr * 7 / 10))),
        ("ticket_id", RVal.s tid),
        ("refund_amount_irr", RVal.n (t.price_irr * 7 / 10))],
       { st with
          ticket_db := dbSet st.ticket_db tid
            { t with
              status := "CANCELLED"
              cancellation_date := some (oracle.now st.clockCount) }
          clockCount := st.clockCount + 1 }) := by
    unfold cancel_ticket
    rw [hget]
    simp [hne]
  refine ⟨hmain, ?_, ?_⟩
  · rw [hmain]
    exact dbGet_dbSet_self _ _ _
  · rcases hprice with h | h <;> rw [h] <;> norm_num

/-- Witness for C4: cancelling the concrete confirmed premium ticket
`ticket0` (price 2250000) refunds exactly 1575000. -/
theorem cancel_ticket_confirmed_refund_witness :
    cancel_ticket oracle0 sys1 "SF-TEKI-A1B2C3" =
      ([("status", RVal.s "success"),
        ("message", RVal.s (cancelSuccessMsg "SF-TEKI-A1B2C3" (2250000 * 7 / 10)
          (2250000 - 2250000 * 7 / 10))),
        ("ticket_id", RVal.s "SF-TEKI-A1B2C3"),
        ("refund_amount_irr", RVal.n (2250000 * 7 / 10))],
       { sys1 with
          ticket_db := dbSet sys1.ticket_db "SF-TEKI-A1B2C3"
            { ticket0 with
              status := "CANCELLED"
              cancellation_date := some (oracle0.now sys1.clockCount) }
          clockCount := sys1.clockCount + 1 }) ∧
    dbGet (cancel_ticket oracle0 sys1 "SF-TEKI-A1B2C3").2.ticket_db "SF-TEKI-A1B2C3" =
      some { ticket0 with
        status := "CANCELLED"
        cancellation_date := some (oracle0.now sys1.clockCount) } ∧
    ((2250000 * 7 / 10 : ℕ) : ℚ) = round ((2250000 : ℚ) * (70 / 100 : ℚ)) :=
  cancel_ticket_confirmed_refund oracle0 sys1 "SF-TEKI-A1B2C3" ticket0 rfl rfl (Or.inr rfl)

/-- C7: cancelling a ticket whose status is already CANCELLED returns a
`status: info` result and leaves the whole tool-set state — the ticket
record and the entire Ticket store — exactly as it was. -/
theorem cancel_ticket_already_cancelled_idempotent (oracle : Oracle) (st : SysState)
    (tid : String) (t : Ticket)
    (hget : dbGet st.ticket_db tid = some t)
    (hstatus : t.status = "CANCELLED") :
    cancel_ticket oracle st tid =
      ([("status", RVal.s "info"),
        ("message", RVal.s ("Ticket ID '" ++ tid ++ "' is already cancelled."))], st) := by
  unfold cancel_ticket
  rw [hget]
  simp [hstatus]

/-- Witness for C7 on the concrete cancelled ticket `ticket0c`. -/
theorem cancel_ticket_already_cancelled_idempotent_witness :
    cancel_ticket oracle0 sys2 "SF-TEKI-A1B2C3" =
      ([("status", RVal.s "info"),
        ("message", RVal.s ("Ticket ID '" ++ "SF-TEKI-A1B2C3" ++ "' is already cancelled."))], sys2) :=
  cancel_ticket_already_cancelled_idempotent oracle0 sys2 "SF-TEKI-A1B2C3" ticket0c rfl rfl

/-- C10: a successful cancellation is frame-preserving: the store size
is unchanged, every other key looks up unchanged, and the targeted
ticket differs from its old value only in `status` and
`cancellation_date` (all other fields are carried over verbatim by the
record update). -/
theorem cancel_ticket_frame (oracle : Oracle) (st : SysState) (tid : String) (t : Ticket)
    (hget : dbGet st.ticket_db tid = some t)
    (hstatus : t.status ≠ "CANCELLED") :
    (cancel_ticket oracle st tid).2.ticket_db.length = st.ticket_db.length ∧
    dbGet (cancel_ticket oracle st tid).2.ticket_db tid =
      some { t with
        status := "CANCELLED"
        cancellation_date := some (oracle.now st.clockCount) } ∧
    (∀ k, k ≠ tid → dbGet (cancel_ticket oracle st tid).2.ticket_db k = dbGet st.ticket_db k) := by
  have hdb : (cancel_ticket oracle st tid).2.ticket_db =
      dbSet st.ticket_db tid
        { t with
          status := "CANCELLED"
          cancellation_date := some (oracle.now st.clockCount) } := by
    unfold cancel_ticket
    rw [hget]
    simp [hstatus]
  rw [hdb]
  exact ⟨length_dbSet_of_mem _ _ _ _ hget, dbGet_dbSet_self _ _ _,
    fun k hk => dbGet_dbSet_ne _ _ _ _ hk⟩

/-- Witness for C10 at the concrete state `sys1`. -/
theorem cancel_ticket_frame_witness :
    (cancel_ticket oracle0 sys1 "SF-TEKI-A1B2C3").2.ticket_db.length =
      sys1.ticket_db.length ∧
    dbGet (cancel_ticket oracle0 sys1 "SF-TEKI-A1B2C3").2.ticket_db "SF-TEKI-A1B2C3" =
      some { ticket0 with
        status := "CANCELLED"
        cancellation_date := some (oracle0.now sys1.clockCount) } ∧
    (∀ k, k ≠ "SF-TEKI-A1B2C3" →
      dbGet (cancel_ticket oracle0 sys1 "SF-TEKI-A1B2C3").2.ticket_db k =
        dbGet sys1.ticket_db k) :=
  cancel_ticket_frame oracle0 sys1 "SF-TEKI-A1B2C3" ticket0 rfl (by decide)

/-- C8: `get_ticket_info` on a never-booked id returns `status: error`;
on the id just created by `book_ticket` it returns exactly the record
`book_ticket` stored, in which the origin, destination, travel date,
passenger name and national id from the booking request reappear
unchanged and the server-generated status is CONFIRMED. -/
theorem get_ticket_info_roundtrip (oracle : Oracle) (st : SysState)
    (tid o d dt pn nid : String)
    (hnone : dbGet st.ticket_db tid = none)
    (ho : o ≠ "") (hd : d ≠ "") (hdt : dt ≠ "") (hpn : pn ≠ "") (hnid : nid ≠ "") :
    get_ticket_info st tid =
      [("status", RVal.s "error"), ("message", RVal.s (ticketNotFoundMsg tid))] ∧
    ∃ td : Ticket,
      (book_ticket oracle st o d dt pn nid).1 =
        [("status", RVal.s "success"),
         ("message", RVal.s "بلیط شما با موفقیت رزرو شد. (Ticket successfully booked)."),
         ("details", RVal.ticket td)] ∧
      get_ticket_info (book_ticket oracle st o d dt pn nid).2 td.ticket_id =
        [("status", RVal.s "success"),
         ("message", RVal.s "Ticket information retrieved."),
         ("details", RVal.ticket td)] ∧
      td.origin = o ∧ td.destination = d ∧ td.travel_date = dt ∧
      td.passenger_name = pn ∧ td.national_id = nid ∧ td.status = "CONFIRMED" := by
  have hguard : ¬(o = "" ∨ d = "" ∨ dt = "" ∨ pn = "" ∨ nid = "") := by
    simp [ho, hd, hdt, hpn, hnid]
  refine ⟨?_,
    ⟨{ ticket_id := generate_ticket_id o d (oracle.uuidHex st.uuidCount)
       origin := o
       destination := d
       travel_date := dt
       departure_time := travel_times.getD (st.ticket_db.length % 3) ""
       passenger_name := pn
       national_id := nid
       price_irr := if d.toLower = "kish" ∨ d.toLower = "qeshm" then 1500000 * 3 / 2 else 1500000
       status := "CONFIRMED"
       booking_date := oracle.now st.clockCount }, ?_, ?_, rfl, rfl, rfl, rfl, rfl, rfl⟩⟩
  · unfold get_ticket_info
    rw [hnone]
  · unfold book_ticket
    rw [if_neg hguard]
  · unfold book_ticket
    rw [if_neg hguard]
    unfold get_ticket_info
    rw [dbGet_dbSet_self]

/-- Witness for C8 at the empty store with a concrete booking. -/
theorem get_ticket_info_roundtrip_witness :
    get_ticket_info sys0 "SF-XX-000000" =
      [("status", RVal.s "error"), ("message", RVal.s (ticketNotFoundMsg "SF-XX-000000"))] ∧
    ∃ td : Ticket,
      (book_ticket oracle0 sys0 "Tehran" "Kish" "2025-02-01" "Ali Ahmadi" "0012345678").1 =
        [("status", RVal.s "success"),
         ("message", RVal.s "بلیط شما با موفقیت رزرو شد. (Ticket successfully booked)."),
         ("details", RVal.ticket td)] ∧
      get_ticket_info (book_ticket oracle0 sys0 "Tehran" "Kish" "2025-02-01" "Ali Ahmadi" "0012345678").2
          td.ticket_id =
        [("status", RVal.s "success"),
         ("message", RVal.s "Ticket information retrieved."),
         ("details", RVal.ticket td)] ∧
      td.origin = "Tehran" ∧ td.destination = "Kish" ∧ td.travel_date = "2025-02-01" ∧
      td.passenger_name = "Ali Ahmadi" ∧ td.national_id = "0012345678" ∧
      td.status = "CONFIRMED" :=
  get_ticket_info_roundtrip oracle0 sys0 "SF-XX-000000" "Tehran" "Kish" "2025-02-01"
    "Ali Ahmadi" "0012345678" rfl (by decide) (by decide) (by decide) (by decide) (by decide)

/-- C9: a successful booking prices the ticket at the base price times
1.5 when the lowercased destination is in the premium set
{kish, qeshm} and at the base price otherwise, assigns the departure
slot at index `len(TICKET_DB) % 3` counted before insertion (cancelled
tickets included, since they stay in the store), and — when the
generated id is fresh — grows the store by one, so consecutive bookings
cycle through the three slots in order. -/
theorem book_ticket_pricing_and_slot (oracle : Oracle) (st : SysState)
    (o d dt pn nid : String)
    (ho : o ≠ "") (hd : d ≠ "") (hdt : dt ≠ "") (hpn : pn ≠ "") (hnid : nid ≠ "") :
    ∃ td : Ticket, ∃ st' : SysState,
      book_ticket oracle st o d dt pn nid =
        ([("status", RVal.s "success"),
          ("message", RVal.s "بلیط شما با موفقیت رزرو شد. (Ticket successfully booked)."),
          ("details", RVal.ticket td)], st') ∧
      (d.toLower = "kish" ∨ d.toLower = "qeshm" →
        (td.price_irr : ℚ) = 1500000 * (3 / 2 : ℚ)) ∧
      (¬(d.toLower = "kish" ∨ d.toLower = "qeshm") → td.price_irr = 1500000) ∧
      td.departure_time = travel_times.getD (st.ticket_db.length % 3) "" ∧
      (dbGet st.ticket_db td.ticket_id = none →
        st'.ticket_db.length = st.ticket_db.length + 1) := by
  have hguard : ¬(o = "" ∨ d = "" ∨ dt = "" ∨ pn = "" ∨ nid = "") := by
    simp [ho, hd, hdt, hpn, hnid]
  refine ⟨bookedTicket oracle st o d dt pn nid, bookedState oracle st o d dt pn nid,
    ?_, ?_, ?_, rfl, ?_⟩
  · unfold book_ticket
    rw [if_neg hguard]
    rfl
  · intro h
    show (((if d.toLower = "kish" ∨ d.toLower = "qeshm" then 1500000 * 3 / 2 else 1500000) : ℕ) : ℚ) = _
    rw [if_pos h]
    norm_num
  · intro h
    show ((if d.toLower = "kish" ∨ d.toLower = "qeshm" then 1500000 * 3 / 2 else 1500000) : ℕ) = _
    rw [if_neg h]
  · intro hfresh
    exact length_dbSet_of_none _ _ _ hfresh

/-- Witness for C9: booking to the premium destination Kish on the
empty store takes the first slot and prices at 2250000. -/
theorem book_ticket_pricing_and_slot_witness :
    ∃ td : Ticket, ∃ st' : SysState,
      book_ticket oracle0 sys0 "Tehran" "Kish" "2025-02-01" "Ali Ahmadi" "0012345678" =
        ([("status", RVal.s "success"),
          ("message", RVal.s "بلیط شما با موفقیت رزرو شد. (Ticket successfully booked)."),
          ("details", RVal.ticket td)], st') ∧
      ("Kish".toLower = "kish" ∨ "Kish".toLower = "qeshm" →
        (td.price_irr : ℚ) = 1500000 * (3 / 2 : ℚ)) ∧
      (¬("Kish".toLower = "kish" ∨ "Kish".toLower = "qeshm") → td.price_irr = 1500000) ∧
      td.departure_time = travel_times.getD (sys0.ticket_db.length % 3) "" ∧
      (dbGet sys0.ticket_db td.ticket_id = none →
        st'.ticket_db.length = sys0.ticket_db.length + 1) :=
  book_ticket_pricing_and_slot oracle0 sys0 "Tehran" "Kish" "2025-02-01" "Ali Ahmadi"
    "0012345678" (by decide) (by decide) (by decide) (by decide) (by decide)

end SafarTravel
